import Mathlib

/-!
Shallow embedding of the book_alchemy library-catalog application
(`app.py`, `data_models.py`).

The persisted state is modelled as a `Store` holding the `author` and
`book` tables as lists (insertion order).  Each Flask request handler
becomes a function from the store (and the parsed form data) to the new
store together with an `Outcome` describing the HTTP-level result
(redirect with a flash message, rendered template, 404, or 400).

Form data is modelled as `Option String` fields: `none` means the field
was absent from the submission.  `request.form[key]` on an absent key
raises a 400 Bad Request in Flask; `request.form.get(key)` yields `None`.
Python truthiness of an optional string (`if birthdate`, `if not
author_id`) treats both `None` and `""` as falsy.

The relational store is an external collaborator; we model it as
enforcing the constraints declared in `data_models.py`: `isbn` unique,
`author_id` a non-null foreign key into `author`, and the
`cascade="all, delete-orphan"` relationship deleting an author's books
with the author.  Auto-increment primary keys are modelled as
max-id-plus-one.  The textual detail of database exception messages is
abstracted to fixed strings mirroring the `f"Error ...: {str(e)}"`
pattern of the handlers.
-/

/-- A calendar date as produced by `datetime.strptime(s, "%Y-%m-%d").date()`. -/
structure PDate where
  year : Nat
  month : Nat
  day : Nat
deriving DecidableEq, Repr

/-- Row of the `author` table (`data_models.py`, class `Author`). -/
structure Author where
  id : Int
  name : String
  birth_date : Option PDate
  date_of_death : Option PDate
deriving DecidableEq, Repr

/-- Row of the `book` table (`data_models.py`, class `Book`). -/
structure Book where
  id : Int
  isbn : String
  title : String
  publication_year : Int
  author_id : Int
deriving DecidableEq, Repr

/-- The persisted state: the two tables of the relational store. -/
structure Store where
  authors : List Author
  books : List Book
deriving DecidableEq, Repr

/-- HTTP method of a request (the handlers branch on `request.method`). -/
inductive Method where
  | GET
  | POST
deriving DecidableEq, Repr

/-- HTTP-level result of a handler: a redirect carrying a flash message
(message text, category), a rendered template (listings carry the data
handed to the template), a 404 from `get_or_404`, or a 400 Bad Request
from accessing an absent required form field. -/
inductive Outcome where
  | redirect (target : String) (message : String) (category : String)
  | renderBooks (books : List Book)
  | renderAuthorsPage (authorsList : List Author)
  | renderAddAuthorForm
  | renderAddBookForm (authorsList : List Author)
  | notFound
  | badRequest
deriving DecidableEq, Repr

/-- Python truthiness of an optional string: `None` and `""` are falsy. -/
def truthy : Option String → Bool
  | none => false
  | some s => !s.data.isEmpty

/-- Leap-year rule used by `datetime.date`. -/
def isLeap (y : Nat) : Bool :=
  (y % 4 == 0 && y % 100 != 0) || y % 400 == 0

/-- Number of days in a month, as validated by `datetime.date`. -/
def daysInMonth (y m : Nat) : Nat :=
  if m == 2 then (if isLeap y then 29 else 28)
  else if m == 4 || m == 6 || m == 9 || m == 11 then 30
  else 31

/-- Split a character list at every dash, keeping empty groups, exactly
as `str.split("-")` / scanning a `%Y-%m-%d` pattern does. -/
def splitOnDash : List Char → List (List Char)
  | [] => [[]]
  | c :: rest =>
    if c == '-' then [] :: splitOnDash rest
    else
      match splitOnDash rest with
      | [] => [[c]]
      | g :: gs => (c :: g) :: gs

/-- Numeric value of a list of decimal digit characters. -/
def digitsToNat (cs : List Char) : Nat :=
  cs.foldl (fun acc c => 10 * acc + (c.toNat - 48)) 0

/-- Model of `datetime.strptime(s, "%Y-%m-%d").date()`: four year digits,
one or two month and day digits separated by dashes, whole string
consumed, and the resulting date valid (month 1-12, day within month). -/
def parseDate (s : String) : Option PDate :=
  match splitOnDash s.data with
  | [ys, ms, ds] =>
    if ys.length == 4 && ys.all Char.isDigit
        && (ms.length == 1 || ms.length == 2) && ms.all Char.isDigit
        && (ds.length == 1 || ds.length == 2) && ds.all Char.isDigit then
      let y := digitsToNat ys
      let m := digitsToNat ms
      let d := digitsToNat ds
      if 1 ≤ y ∧ 1 ≤ m ∧ m ≤ 12 ∧ 1 ≤ d ∧ d ≤ daysInMonth y m then
        some ⟨y, m, d⟩
      else none
    else none
  | _ => none

/-- The whitespace characters Python's `int(...)` strips from both ends. -/
def isPySpace (c : Char) : Bool :=
  c == ' ' || c == '\t' || c == '\n' || c == '\r' || c == '\x0b' || c == '\x0c'

/-- Drop the longest run of characters satisfying `p` from the front. -/
def dropLeading (p : Char → Bool) : List Char → List Char
  | [] => []
  | c :: cs => if p c then dropLeading p cs else c :: cs

/-- Strip whitespace from both ends of a character list. -/
def trimChars (cs : List Char) : List Char :=
  (dropLeading isPySpace ((dropLeading isPySpace cs).reverse)).reverse

/-- Model of Python `int(s)` on a form string: optional surrounding
whitespace, optional sign, then one or more decimal digits; anything
else raises `ValueError`. -/
def pyInt (s : String) : Option Int :=
  match trimChars s.data with
  | [] => none
  | '-' :: r =>
    if !r.isEmpty && r.all Char.isDigit then some (-(digitsToNat r : Int)) else none
  | '+' :: r =>
    if !r.isEmpty && r.all Char.isDigit then some ((digitsToNat r : Int)) else none
  | cs =>
    if cs.all Char.isDigit then some ((digitsToNat cs : Int)) else none

/-- Auto-increment surrogate key: one more than the largest id in use. -/
def nextId (ids : List Int) : Int := ids.foldr max 0 + 1

/-- Handler for `GET /` (`home` in `app.py`): fetch all books and render
the home template with them.  No write occurs. -/
def home (s : Store) : Store × Outcome :=
  (s, Outcome.renderBooks s.books)

/-- Handler for `GET /authors` (`authors` in `app.py`): fetch all authors
and render the authors template with them.  No write occurs. -/
def authors (s : Store) : Store × Outcome :=
  (s, Outcome.renderAuthorsPage s.authors)

/-- Form fields of the add-author page.  `name` is read with
`request.form["name"]` (400 if absent); the two dates with `.get`. -/
structure AuthorForm where
  name : Option String
  birthdate : Option String
  date_of_death : Option String
deriving DecidableEq, Repr

/-- Shared shape of the two optional date conversions in `add_author`:
`datetime.strptime(x, "%Y-%m-%d").date() if x else None`, where a parse
failure raises (caught by the handler's `except`). -/
def convertDate (f : Option String) : Except String (Option PDate) :=
  if truthy f then
    match parseDate (f.getD "") with
    | some d => Except.ok (some d)
    | none => Except.error "time data does not match format"
  else Except.ok none

/-- Handler for `/add_author` (`add_author` in `app.py`).  POST: read
`name` (400 if absent), convert the optional dates, insert the new
Author and commit; on any exception roll back, flash an error and
redirect back to the form.  GET: render the form. -/
def add_author (s : Store) (method : Method) (form : AuthorForm) : Store × Outcome :=
  match method with
  | Method.POST =>
    match form.name with
    | none => (s, Outcome.badRequest)
    | some name =>
      match convertDate form.birthdate with
      | Except.error e => (s, Outcome.redirect "add_author" ("Error adding author: " ++ e) "danger")
      | Except.ok birth_date_obj =>
        match convertDate form.date_of_death with
        | Except.error e => (s, Outcome.redirect "add_author" ("Error adding author: " ++ e) "danger")
        | Except.ok death_date_obj =>
          let new_author : Author :=
            { id := nextId (s.authors.map Author.id), name := name,
              birth_date := birth_date_obj, date_of_death := death_date_obj }
          ({ s with authors := s.authors ++ [new_author] },
           Outcome.redirect "authors" "Author added successfully!" "success")
  | Method.GET => (s, Outcome.renderAddAuthorForm)

/-- Form fields of the add-book page.  `title`, `isbn`,
`publication_year` are read with `request.form[...]` (400 if absent);
`author` with `request.form.get("author")`. -/
structure BookForm where
  title : Option String
  isbn : Option String
  publication_year : Option String
  author : Option String
deriving DecidableEq, Repr

/-- Handler for `/add_book` (`add_book` in `app.py`).  POST: read the
three required fields (400 if any absent), then inside the `try`: if
`author` is falsy flash "Author selection is required." and redirect;
otherwise coerce `publication_year` and `author` to int and insert the
Book, the store rejecting a duplicate `isbn` (unique column) or an
`author_id` that matches no Author (non-null foreign key); any exception
rolls back, flashes and redirects back to the form.  GET: render the
form with all authors for the dropdown. -/
def add_book (s : Store) (method : Method) (form : BookForm) : Store × Outcome :=
  match method with
  | Method.POST =>
    match form.title, form.isbn, form.publication_year with
    | some title, some isbn, some publication_year =>
      let author_id := form.author
      if !truthy author_id then
        (s, Outcome.redirect "add_book" "Author selection is required." "danger")
      else
        match pyInt publication_year, pyInt (author_id.getD "") with
        | some py, some aid =>
          if s.books.any (fun b => b.isbn == isbn) then
            (s, Outcome.redirect "add_book"
              "Error adding book: UNIQUE constraint failed: book.isbn" "danger")
          else if !s.authors.any (fun a => a.id == aid) then
            (s, Outcome.redirect "add_book"
              "Error adding book: FOREIGN KEY constraint failed" "danger")
          else
            let new_book : Book :=
              { id := nextId (s.books.map Book.id), isbn := isbn, title := title,
                publication_year := py, author_id := aid }
            ({ s with books := s.books ++ [new_book] },
             Outcome.redirect "home" "Book added successfully!" "success")
        | _, _ =>
          (s, Outcome.redirect "add_book"
            "Error adding book: invalid literal for int" "danger")
    | _, _, _ => (s, Outcome.badRequest)
  | Method.GET => (s, Outcome.renderAddBookForm s.authors)

/-- Handler for `POST /author/{id}/delete` (`delete_author` in `app.py`):
look the Author up by primary key (404 if absent), delete it and commit;
the `cascade="all, delete-orphan"` relationship deletes every Book whose
`author_id` references it in the same flush. -/
def delete_author (s : Store) (author_id : Int) : Store × Outcome :=
  match s.authors.find? (fun a => a.id == author_id) with
  | none => (s, Outcome.notFound)
  | some author =>
    ({ authors := s.authors.filter (fun a => !(a.id == author.id)),
       books := s.books.filter (fun b => !(b.author_id == author.id)) },
     Outcome.redirect "authors" "Author deleted successfully!" "success")

/-- First commit of `delete_book` (`app.py` lines 170-173): look the Book
up by primary key (`none` models the 404), load its `author`
relationship (which may find no row), delete the Book and commit.
Returns the intermediate persisted state and the former author's id. -/
def delete_book_step1 (s : Store) (book_id : Int) : Option (Store × Option Int) :=
  match s.books.find? (fun b => b.id == book_id) with
  | none => none
  | some book =>
    let author := s.authors.find? (fun a => a.id == book.author_id)
    some ({ s with books := s.books.filter (fun b => !(b.id == book.id)) },
          author.map Author.id)

/-- Second commit of `delete_book` (`app.py` lines 175-177): if the
former author exists and `author.books` (re-read after the first commit)
is empty, delete the author and commit. -/
def delete_book_step2 (s : Store) (former : Option Int) : Store :=
  match former with
  | none => s
  | some aid =>
    if (s.books.filter (fun b => b.author_id == aid)).isEmpty then
      { s with authors := s.authors.filter (fun a => !(a.id == aid)) }
    else s

/-- Handler for `POST /book/{id}/delete` (`delete_book` in `app.py`):
the two commits in sequence, then a success flash and redirect home. -/
def delete_book (s : Store) (book_id : Int) : Store × Outcome :=
  match delete_book_step1 s book_id with
  | none => (s, Outcome.notFound)
  | some (s1, former) =>
    (delete_book_step2 s1 former,
     Outcome.redirect "home" "Book deleted successfully!" "success")

def wAuthor : Author := ⟨1, "Alpha", none, none⟩

def wAuthor2 : Author := ⟨2, "Beta", none, none⟩

def wBook1 : Book := ⟨1, "isbn1", "One", 2000, 1⟩

def wBook2 : Book := ⟨2, "isbn2", "Two", 2001, 1⟩

def wStore : Store := ⟨[wAuthor, wAuthor2], [wBook1, wBook2]⟩

def wStoreOne : Store := ⟨[wAuthor], [wBook1]⟩

theorem truthy_of_ne_empty (a : String) (h : a ≠ "") : truthy (some a) = true := by
  have hd : a.data ≠ [] := fun h0 => h (String.ext (by simpa using h0))
  simp [truthy, List.isEmpty_eq_false.mpr hd]

theorem find_id_of_mem_nodup {α : Type} (f : α → Int) (l : List α) (x : α)
    (hx : x ∈ l) (hnd : (l.map f).Nodup) :
    l.find? (fun y => f y == f x) = some x := by
  induction l with
  | nil => cases hx
  | cons a t ih =>
    rw [List.map_cons, List.nodup_cons] at hnd
    rcases List.mem_cons.mp hx with rfl | hxt
    · exact List.find?_cons_of_pos _ (by simp)
    · by_cases hfa : f a = f x
      · exact absurd (hfa ▸ List.mem_map_of_mem f hxt) hnd.1
      · rw [List.find?_cons_of_neg _ (by simpa using hfa)]
        exact ih hxt hnd.2

theorem delete_book_step2_books (t : Store) (f : Option Int) :
    (delete_book_step2 t f).books = t.books := by
  unfold delete_book_step2
  cases f with
  | none => rfl
  | some aid =>
    by_cases h : (t.books.filter (fun b => b.author_id == aid)).isEmpty <;> simp [h]

theorem delete_book_step2_authors_empty (t : Store) (aid : Int)
    (h : t.books.filter (fun b => b.author_id == aid) = []) :
    (delete_book_step2 t (some aid)).authors
      = t.authors.filter (fun a => !(a.id == aid)) := by
  simp [delete_book_step2, h]

theorem delete_book_step2_authors_nonempty (t : Store) (aid : Int)
    (h : t.books.filter (fun b => b.author_id == aid) ≠ []) :
    (delete_book_step2 t (some aid)).authors = t.authors := by
  simp [delete_book_step2, List.isEmpty_eq_false.mpr h]

/-- Claim C2: for every existing Author A, delete-author on A's id removes A
and every Book whose `author_id` references A from the store, in the same
logical operation (one call of `delete_author`), leaving all other authors
and books in place. -/
theorem delete_author_cascades (s : Store) (A : Author) (hA : A ∈ s.authors) :
    (∀ a ∈ (delete_author s A.id).1.authors, a.id ≠ A.id) ∧
    (∀ b ∈ (delete_author s A.id).1.books, b.author_id ≠ A.id) ∧
    (∀ a ∈ s.authors, a.id ≠ A.id → a ∈ (delete_author s A.id).1.authors) ∧
    (∀ b ∈ s.books, b.author_id ≠ A.id → b ∈ (delete_author s A.id).1.books) ∧
    (delete_author s A.id).2 = Outcome.redirect "authors" "Author deleted successfully!" "success" := by
  obtain ⟨A', hfind, hA'id⟩ :
      ∃ A', s.authors.find? (fun a => a.id == A.id) = some A' ∧ A'.id = A.id := by
    cases h : s.authors.find? (fun a => a.id == A.id) with
    | some a => exact ⟨a, rfl, by simpa using List.find?_some h⟩
    | none =>
      have := List.find?_eq_none.mp h A hA
      simp at this
  simp only [delete_author, hfind]
  refine ⟨?_, ?_, ?_, ?_, trivial⟩
  · intro a ha
    have := (List.mem_filter.mp ha).2
    simpa [hA'id] using this
  · intro b hb
    have := (List.mem_filter.mp hb).2
    simpa [hA'id] using this
  · intro a ha hne
    exact List.mem_filter.mpr ⟨ha, by simpa [hA'id] using hne⟩
  · intro b hb hne
    exact List.mem_filter.mpr ⟨hb, by simpa [hA'id] using hne⟩

/-- Claim C1: delete-book on a Book B removes B (and only B) from the book
table; if B's Author A owned exactly B, A is removed as well, while if A
owns at least one other Book, A remains in the store. -/
theorem delete_book_last_book_cascade (s : Store) (B : Book) (A : Author)
    (hB : B ∈ s.books) (hA : A ∈ s.authors) (hid : A.id = B.author_id)
    (hbn : (s.books.map Book.id).Nodup) :
    (∀ b ∈ (delete_book s B.id).1.books, b.id ≠ B.id) ∧
    (∀ b ∈ s.books, b.id ≠ B.id → b ∈ (delete_book s B.id).1.books) ∧
    (∀ a ∈ s.authors, a.id ≠ A.id → a ∈ (delete_book s B.id).1.authors) ∧
    ((∀ b ∈ s.books, b.author_id = A.id → b.id = B.id) →
      ∀ a ∈ (delete_book s B.id).1.authors, a.id ≠ A.id) ∧
    ((∃ b ∈ s.books, b.author_id = A.id ∧ b.id ≠ B.id) →
      A ∈ (delete_book s B.id).1.authors) := by
  have hfindB : s.books.find? (fun b => b.id == B.id) = some B :=
    find_id_of_mem_nodup Book.id s.books B hB hbn
  obtain ⟨A', hfindA, hA'id⟩ :
      ∃ A', s.authors.find? (fun a => a.id == B.author_id) = some A' ∧ A'.id = B.author_id := by
    cases h : s.authors.find? (fun a => a.id == B.author_id) with
    | some a => exact ⟨a, rfl, by simpa using List.find?_some h⟩
    | none =>
      have h2 := List.find?_eq_none.mp h A hA
      exact absurd hid (by simpa using h2)
  have hAA : A'.id = A.id := hA'id.trans hid.symm
  have hstep1 : delete_book_step1 s B.id =
      some ({ s with books := s.books.filter (fun b => !(b.id == B.id)) }, some A'.id) := by
    simp only [delete_book_step1, hfindB, hfindA, Option.map_some']
  have hdb1 : (delete_book s B.id).1 =
      delete_book_step2 { s with books := s.books.filter (fun b => !(b.id == B.id)) }
        (some A'.id) := by
    simp only [delete_book, hstep1]
  refine ⟨?_, ?_, ?_, ?_, ?_⟩
  · intro b hb
    rw [hdb1, delete_book_step2_books] at hb
    have := (List.mem_filter.mp hb).2
    simpa using this
  · intro b hb hne
    rw [hdb1, delete_book_step2_books]
    exact List.mem_filter.mpr ⟨hb, by simpa using hne⟩
  · intro a ha hne
    rw [hdb1]
    by_cases hemp : (s.books.filter (fun b => !(b.id == B.id))).filter
        (fun b => b.author_id == A'.id) = []
    · rw [delete_book_step2_authors_empty _ _ hemp]
      exact List.mem_filter.mpr ⟨ha, by simpa [hAA] using hne⟩
    · rw [delete_book_step2_authors_nonempty _ _ hemp]
      exact ha
  · intro honly a ha
    have hempty : (s.books.filter (fun b => !(b.id == B.id))).filter
        (fun b => b.author_id == A'.id) = [] := by
      rw [List.filter_eq_nil_iff]
      intro b hb hba
      have hb1 := List.mem_filter.mp hb
      have hbne : b.id ≠ B.id := by simpa using hb1.2
      have hbaid : b.author_id = A.id := by
        have h3 : b.author_id = A'.id := by simpa using hba
        rw [h3, hAA]
      exact hbne (honly b hb1.1 hbaid)
    rw [hdb1, delete_book_step2_authors_empty _ _ hempty] at ha
    have := (List.mem_filter.mp ha).2
    simpa [hAA] using this
  · intro hex
    obtain ⟨b', hb'mem, hb'aid, hb'ne⟩ := hex
    have hb's1 : b' ∈ s.books.filter (fun b => !(b.id == B.id)) :=
      List.mem_filter.mpr ⟨hb'mem, by simpa using hb'ne⟩
    have hb'f : b' ∈ (s.books.filter (fun b => !(b.id == B.id))).filter
        (fun b => b.author_id == A'.id) :=
      List.mem_filter.mpr ⟨hb's1, by simp [hb'aid, hAA]⟩
    rw [hdb1, delete_book_step2_authors_nonempty _ _ (List.ne_nil_of_mem hb'f)]
    exact hA

/-- Claim C3: delete-book is two separate commits.  After the first commit
(`delete_book_step1`) the Book is gone while its Author is still present and
now childless, and the full handler is exactly `delete_book_step2` applied to
that intermediate state - so if the second step never runs, the persisted
state keeps the childless Author with the Book already deleted. -/
theorem delete_book_two_commit_gap (s : Store) (B : Book) (A : Author)
    (hB : B ∈ s.books) (hA : A ∈ s.authors) (hid : A.id = B.author_id)
    (hbn : (s.books.map Book.id).Nodup)
    (honly : ∀ b ∈ s.books, b.author_id = A.id → b.id = B.id) :
    ∃ s1, delete_book_step1 s B.id = some (s1, some A.id) ∧
      (∀ b ∈ s1.books, b.id ≠ B.id) ∧
      A ∈ s1.authors ∧
      (∀ b ∈ s1.books, b.author_id ≠ A.id) ∧
      (delete_book s B.id).1 = delete_book_step2 s1 (some A.id) := by
  have hfindB : s.books.find? (fun b => b.id == B.id) = some B :=
    find_id_of_mem_nodup Book.id s.books B hB hbn
  obtain ⟨A', hfindA, hA'id⟩ :
      ∃ A', s.authors.find? (fun a => a.id == B.author_id) = some A' ∧ A'.id = B.author_id := by
    cases h : s.authors.find? (fun a => a.id == B.author_id) with
    | some a => exact ⟨a, rfl, by simpa using List.find?_some h⟩
    | none =>
      have h2 := List.find?_eq_none.mp h A hA
      exact absurd hid (by simpa using h2)
  have hAA : A'.id = A.id := hA'id.trans hid.symm
  refine ⟨{ s with books := s.books.filter (fun b => !(b.id == B.id)) }, ?_, ?_, hA, ?_, ?_⟩
  · simp only [delete_book_step1, hfindB, hfindA, Option.map_some', hAA]
  · intro b hb
    have := (List.mem_filter.mp hb).2
    simpa using this
  · intro b hb
    have hb1 := List.mem_filter.mp hb
    have hbne : b.id ≠ B.id := by simpa using hb1.2
    intro hba
    exact hbne (honly b hb1.1 hba)
  · simp only [delete_book, delete_book_step1, hfindB, hfindA, Option.map_some', hAA]

/-- Claim C4: for every store containing a Book with a given isbn, an
otherwise well-formed add-book submission reusing that isbn fails with the
unique-constraint integrity error, is rolled back, and leaves the store - in
particular the set of rows with that isbn - unchanged. -/
theorem add_book_duplicate_isbn_rolls_back (s : Store) (form : BookForm) (B : Book)
    (t p a : String) (py aid : Int)
    (hB : B ∈ s.books)
    (ht : form.title = some t) (hi : form.isbn = some B.isbn)
    (hp : form.publication_year = some p) (ha : form.author = some a)
    (hane : a ≠ "") (hpy : pyInt p = some py) (haid : pyInt a = some aid) :
    add_book s Method.POST form =
      (s, Outcome.redirect "add_book"
        "Error adding book: UNIQUE constraint failed: book.isbn" "danger") := by
  have htr : truthy (some a) = true := truthy_of_ne_empty a hane
  have hdup : s.books.any (fun b => b.isbn == B.isbn) = true :=
    List.any_eq_true.mpr ⟨B, hB, by simp⟩
  simp only [add_book, ht, hi, hp, ha, htr, Option.getD, hpy, haid, hdup,
    Bool.not_true, if_pos, if_neg, Bool.false_eq_true, not_false_iff, ite_false, ite_true]

/-- Claim C5: an add-book submission whose `author` field parses as an
integer that is no existing Author's id fails (danger-flash redirect back to
the form) and creates no Book row: the store is returned unchanged. -/
theorem add_book_dangling_author_rejected (s : Store) (form : BookForm)
    (t i p a : String) (py aid : Int)
    (ht : form.title = some t) (hi : form.isbn = some i)
    (hp : form.publication_year = some p) (ha : form.author = some a)
    (hane : a ≠ "") (hpy : pyInt p = some py) (haid : pyInt a = some aid)
    (hno : ∀ x ∈ s.authors, x.id ≠ aid) :
    (add_book s Method.POST form).1 = s ∧
    ∃ msg, (add_book s Method.POST form).2 = Outcome.redirect "add_book" msg "danger" := by
  have htr : truthy (some a) = true := truthy_of_ne_empty a hane
  have hnoa : s.authors.any (fun x => x.id == aid) = false := by
    rw [List.any_eq_false]
    intro x hx
    simpa using hno x hx
  by_cases hdup : s.books.any (fun b => b.isbn == i) = true
  · simp only [add_book, ht, hi, hp, ha, htr, Option.getD, hpy, haid, hdup,
      Bool.not_true, Bool.false_eq_true, not_false_iff, ite_false, ite_true]
    exact ⟨trivial, "Error adding book: UNIQUE constraint failed: book.isbn", rfl⟩
  · have hdup' : s.books.any (fun b => b.isbn == i) = false := by
      revert hdup
      cases s.books.any (fun b => b.isbn == i) <;> simp
    simp only [add_book, ht, hi, hp, ha, htr, Option.getD, hpy, haid, hdup', hnoa,
      Bool.not_true, Bool.not_false, Bool.false_eq_true, not_false_iff, ite_false, ite_true]
    exact ⟨trivial, "Error adding book: FOREIGN KEY constraint failed", rfl⟩

/-- Claim C6 counterexample: submitting add-author with a present but empty
`name` does NOT fail - on the empty store it succeeds with the success
redirect and persists an Author row whose name is the empty string,
contradicting the claim that an empty `name` fails validation with no row
created. -/
theorem add_author_empty_name_accepted_cex :
    (add_author ⟨[], []⟩ Method.POST ⟨some "", none, none⟩).2
        = Outcome.redirect "authors" "Author added successfully!" "success" ∧
    (add_author ⟨[], []⟩ Method.POST ⟨some "", none, none⟩).1.authors
        = [⟨1, "", none, none⟩] := by
  exact ⟨rfl, rfl⟩

/-- Claim C6 (amended): if the `name` field is absent the request fails with
a 400 Bad Request before any insert and no Author row is created; a present
but empty `name` is accepted and an Author row with empty name is persisted.
-/
theorem add_author_name_amended (s : Store) (form : AuthorForm) :
    (form.name = none → add_author s Method.POST form = (s, Outcome.badRequest)) ∧
    (form.name = some "" → truthy form.birthdate = false → truthy form.date_of_death = false →
      add_author s Method.POST form =
        ({ s with authors := s.authors ++ [⟨nextId (s.authors.map Author.id), "", none, none⟩] },
         Outcome.redirect "authors" "Author added successfully!" "success")) := by
  constructor
  · intro hn
    simp only [add_author, hn]
  · intro hn hb hd
    simp only [add_author, hn, convertDate, hb, hd, Bool.false_eq_true, if_neg, not_false_iff,
      ite_false]

/-- Witness for the amended C6: both the absent-name and the empty-name
branches at concrete stores. -/
theorem add_author_name_amended_witness :
    add_author ⟨[], []⟩ Method.POST ⟨none, none, none⟩ = (⟨[], []⟩, Outcome.badRequest) ∧
    add_author ⟨[⟨1, "X", none, none⟩], []⟩ Method.POST ⟨some "", none, none⟩ =
      (⟨[⟨1, "X", none, none⟩, ⟨2, "", none, none⟩], []⟩,
       Outcome.redirect "authors" "Author added successfully!" "success") := by
  refine ⟨(add_author_name_amended ⟨[], []⟩ ⟨none, none, none⟩).1 rfl, ?_⟩
  have h := (add_author_name_amended ⟨[⟨1, "X", none, none⟩], []⟩ ⟨some "", none, none⟩).2 rfl rfl rfl
  rw [h]
  rfl

/-- Claim C7 counterexample: a submission missing the `author` field AND the
other required fields is answered with a 400 Bad Request raised while reading
`title`, not with the specific "Author selection is required." message the
claim promises for every submission missing `author`. -/
theorem add_book_missing_title_and_author_cex :
    add_book ⟨[], []⟩ Method.POST ⟨none, none, none, none⟩ = (⟨[], []⟩, Outcome.badRequest) ∧
    Outcome.badRequest ≠
      Outcome.redirect "add_book" "Author selection is required." "danger" := by
  exact ⟨rfl, fun h => Outcome.noConfusion h⟩

/-- Claim C7 (amended): for every add-book submission that does contain the
`title`, `isbn` and `publication_year` fields but no `author` field, the
handler fails before attempting any insert, flashes the specific
"Author selection is required." message, redirects back to the add-book form,
and no Book row is created - regardless of the content of the other fields
(the check precedes integer parsing and all storage-level validation). -/
theorem add_book_author_presence_checked_first (s : Store) (form : BookForm)
    (t i p : String)
    (ht : form.title = some t) (hi : form.isbn = some i)
    (hp : form.publication_year = some p)
    (ha : form.author = none) :
    add_book s Method.POST form =
      (s, Outcome.redirect "add_book" "Author selection is required." "danger") := by
  simp only [add_book, ht, hi, hp, ha, truthy, Bool.not_false, if_pos, ite_true]

/-- Witness for the amended C7: the author-required message wins even though
`publication_year` is not numeric. -/
theorem add_book_author_presence_checked_first_witness :
    add_book ⟨[], []⟩ Method.POST ⟨some "T", some "i", some "not a number", none⟩ =
      (⟨[], []⟩, Outcome.redirect "add_book" "Author selection is required." "danger") :=
  add_book_author_presence_checked_first ⟨[], []⟩ ⟨some "T", some "i", some "not a number", none⟩
    "T" "i" "not a number" rfl rfl rfl rfl

/-- Claim C8: an add-author submission whose `birthdate` or `date_of_death`
is present but not parseable as YYYY-MM-DD fails: the store is unchanged
(rollback), an error notification is flashed, and the outcome is a redirect
back to the add-author form. -/
theorem add_author_bad_date_rolls_back (s : Store) (form : AuthorForm) (name : String)
    (hn : form.name = some name)
    (hbad : (truthy form.birthdate = true ∧ parseDate (form.birthdate.getD "") = none) ∨
            (truthy form.date_of_death = true ∧ parseDate (form.date_of_death.getD "") = none)) :
    add_author s Method.POST form =
      (s, Outcome.redirect "add_author"
        "Error adding author: time data does not match format" "danger") := by
  have herr : ∀ f : Option String, truthy f = true → parseDate (f.getD "") = none →
      convertDate f = Except.error "time data does not match format" := by
    intro f h1 h2
    simp [convertDate, h1, h2]
  rcases hbad with ⟨htr, hpd⟩ | ⟨htr, hpd⟩
  · simp only [add_author, hn, herr _ htr hpd]
    rfl
  · cases hcb : convertDate form.birthdate with
    | error e =>
      have he : e = "time data does not match format" := by
        by_cases h : truthy form.birthdate = true
        · cases hpb : parseDate (form.birthdate.getD "") with
          | none =>
            have h4 := herr _ h hpb
            rw [h4] at hcb
            exact (Except.error.inj hcb).symm
          | some d =>
            rw [show convertDate form.birthdate = Except.ok (some d) by
              simp [convertDate, h, hpb]] at hcb
            cases hcb
        · have h' : truthy form.birthdate = false := by
            revert h
            cases truthy form.birthdate <;> simp
          rw [show convertDate form.birthdate = Except.ok none by
            simp [convertDate, h']] at hcb
          cases hcb
      subst he
      simp only [add_author, hn, hcb]
      rfl
    | ok v =>
      simp only [add_author, hn, hcb, herr _ htr hpd]
      rfl

/-- Claim C9: with no intervening write, running the book-listing handler
twice returns identical results (and state), and likewise for the
author-listing handler. -/
theorem listing_idempotent (s : Store) :
    home ((home s).1) = home s ∧ authors ((authors s).1) = authors s :=
  ⟨rfl, rfl⟩

/-- Claim C10: the read-only operations - book listing, author listing, and
the GET branches of add-author and add-book - leave the persisted state
completely unchanged. -/
theorem read_only_handlers_frame (s : Store) (aform : AuthorForm) (bform : BookForm) :
    (home s).1 = s ∧ (authors s).1 = s ∧
    (add_author s Method.GET aform).1 = s ∧ (add_book s Method.GET bform).1 = s :=
  ⟨rfl, rfl, rfl, rfl⟩

/-- Witness for C1 at a concrete two-author store. -/
theorem delete_book_last_book_cascade_witness :
    (∀ b ∈ (delete_book wStore wBook1.id).1.books, b.id ≠ wBook1.id) ∧
    (∀ b ∈ wStore.books, b.id ≠ wBook1.id → b ∈ (delete_book wStore wBook1.id).1.books) ∧
    (∀ a ∈ wStore.authors, a.id ≠ wAuthor.id → a ∈ (delete_book wStore wBook1.id).1.authors) ∧
    ((∀ b ∈ wStore.books, b.author_id = wAuthor.id → b.id = wBook1.id) →
      ∀ a ∈ (delete_book wStore wBook1.id).1.authors, a.id ≠ wAuthor.id) ∧
    ((∃ b ∈ wStore.books, b.author_id = wAuthor.id ∧ b.id ≠ wBook1.id) →
      wAuthor ∈ (delete_book wStore wBook1.id).1.authors) :=
  delete_book_last_book_cascade wStore wBook1 wAuthor (by decide) (by decide) rfl (by decide)

/-- Witness for C2 at a concrete two-author store. -/
theorem delete_author_cascades_witness :
    (∀ a ∈ (delete_author wStore wAuthor.id).1.authors, a.id ≠ wAuthor.id) ∧
    (∀ b ∈ (delete_author wStore wAuthor.id).1.books, b.author_id ≠ wAuthor.id) ∧
    (∀ a ∈ wStore.authors, a.id ≠ wAuthor.id → a ∈ (delete_author wStore wAuthor.id).1.authors) ∧
    (∀ b ∈ wStore.books, b.author_id ≠ wAuthor.id → b ∈ (delete_author wStore wAuthor.id).1.books) ∧
    (delete_author wStore wAuthor.id).2
      = Outcome.redirect "authors" "Author deleted successfully!" "success" :=
  delete_author_cascades wStore wAuthor (by decide)

/-- Witness for C3 at a concrete one-author one-book store. -/
theorem delete_book_two_commit_gap_witness :
    ∃ s1, delete_book_step1 wStoreOne wBook1.id = some (s1, some wAuthor.id) ∧
      (∀ b ∈ s1.books, b.id ≠ wBook1.id) ∧
      wAuthor ∈ s1.authors ∧
      (∀ b ∈ s1.books, b.author_id ≠ wAuthor.id) ∧
      (delete_book wStoreOne wBook1.id).1 = delete_book_step2 s1 (some wAuthor.id) :=
  delete_book_two_commit_gap wStoreOne wBook1 wAuthor (by decide) (by decide) rfl (by decide)
    (by decide)

/-- Witness for C4: reusing the isbn of book 1. -/
theorem add_book_duplicate_isbn_rolls_back_witness :
    add_book wStore Method.POST ⟨some "Other", some wBook1.isbn, some "1999", some "1"⟩ =
      (wStore, Outcome.redirect "add_book"
        "Error adding book: UNIQUE constraint failed: book.isbn" "danger") :=
  add_book_duplicate_isbn_rolls_back wStore
    ⟨some "Other", some wBook1.isbn, some "1999", some "1"⟩ wBook1
    "Other" "1999" "1" 1999 1 (by decide) rfl rfl rfl rfl (by decide) (by decide) (by decide)

/-- Witness for C5: author id 9 exists in no Author row. -/
theorem add_book_dangling_author_rejected_witness :
    (add_book wStore Method.POST ⟨some "T", some "fresh", some "1999", some "9"⟩).1 = wStore ∧
    ∃ msg, (add_book wStore Method.POST ⟨some "T", some "fresh", some "1999", some "9"⟩).2
      = Outcome.redirect "add_book" msg "danger" :=
  add_book_dangling_author_rejected wStore ⟨some "T", some "fresh", some "1999", some "9"⟩
    "T" "fresh" "1999" "9" 1999 9 rfl rfl rfl rfl (by decide) (by decide) (by decide) (by decide)

/-- Witness for C8: an unparseable birthdate on a concrete store. -/
theorem add_author_bad_date_rolls_back_witness :
    add_author wStore Method.POST ⟨some "Jane", some "nope", none⟩ =
      (wStore, Outcome.redirect "add_author"
        "Error adding author: time data does not match format" "danger") :=
  add_author_bad_date_rolls_back wStore ⟨some "Jane", some "nope", none⟩ "Jane" rfl
    (Or.inl ⟨by decide, by decide⟩)
